import Mathlib

/-!
Shallow embedding of the nutrient-dws-azure-word core:
the Conversion Proxy (api/build.ts, Vercel handler), the Preview Relay
(azure-functions/src/viewer-upload.ts), and the client-side Pipeline
Orchestrator (src/services/DocumentService variant with viewer upload:
exportToPDF, importFromPDF, redactDocument, uploadToViewer).

External collaborators (Office.js document retrieval, fetch, axios,
JSON.parse, URL.createObjectURL) are passed in as explicit oracle
parameters; machine-level JavaScript truthiness of optional strings and
booleans is modelled by explicit helpers.
-/

namespace NutrientDWS

/-- JavaScript truthiness of a possibly-absent string: `undefined` and the
empty string are falsy, every other string is truthy. -/
def truthyStr : Option String → Bool
  | some s => s ≠ ""
  | none => false

/-- JavaScript `a || b` where `a` is a possibly-absent string and `b` a
string default. -/
def jsOrStr (a : Option String) (b : String) : String :=
  match a with
  | some s => if s = "" then b else s
  | none => b

/-- JavaScript `a || b` where both operands are possibly-absent strings:
yields `b` when `a` is absent or empty. -/
def jsOrOpt (a b : Option String) : Option String :=
  match a with
  | some s => if s = "" then b else some s
  | none => b

/-- JavaScript `a || b` for a possibly-absent boolean with boolean
default: `undefined || b = b`, `false || b = b`, `true || b = true`. -/
def jsOrBool (a : Option Bool) (b : Bool) : Bool :=
  match a with
  | some x => x || b
  | none => b

/-- JavaScript object-spread override for one optional key:
`{ k: base, ...options }` keeps `base` only when the key is absent from
`options`. -/
def spreadField {α : Type} (base override : Option α) : Option α :=
  match override with
  | some v => some v
  | none => base

/-- `error.response?.status || 500` from the axios error mapping. -/
def jsOrStatus (s : Option Nat) : Nat :=
  match s with
  | some n => if n = 0 then 500 else n
  | none => 500

/-- `ProcessingOptions` from src/types/index.ts: all four fields optional. -/
structure ProcessingOptions where
  format : Option String
  ocr : Option Bool
  redact : Option Bool
  stripMetadata : Option Bool
deriving Repr, DecidableEq

/-- The instruction object the client serializes into the `instructions`
form field (fields absent from the JavaScript object are `none`). -/
structure Instructions where
  action : Option String
  format : Option String
  ocr : Option Bool
  redact : Option Bool
  stripMetadata : Option Bool
deriving Repr, DecidableEq

/-- Instructions built by `DocumentService.exportToPDF`:
format from options defaulting to pdf, and ocr / redact /
stripMetadata defaulting to false via JavaScript or-defaults. -/
def exportInstructions (options : ProcessingOptions) : Instructions :=
  { action := none
    format := some (jsOrStr options.format "pdf")
    ocr := some (jsOrBool options.ocr false)
    redact := some (jsOrBool options.redact false)
    stripMetadata := some (jsOrBool options.stripMetadata false) }

/-- Instructions built by `DocumentService.redactDocument`:
a base object with action redact, format pdf, redact true, and
stripMetadata or-defaulted to true, then overridden by an object spread
of the options. -/
def redactInstructions (options : ProcessingOptions) : Instructions :=
  { action := some "redact"
    format := spreadField (some "pdf") options.format
    ocr := options.ocr
    redact := spreadField (some true) options.redact
    stripMetadata := spreadField (some (jsOrBool options.stripMetadata true)) options.stripMetadata }

/-- Instructions built by `DocumentService.importFromPDF`:
a base object with action import, format docx, and ocr or-defaulted
to false, then overridden by an object spread of the options. -/
def importInstructions (options : ProcessingOptions) : Instructions :=
  { action := some "import"
    format := spreadField (some "docx") options.format
    ocr := spreadField (some (jsOrBool options.ocr false)) options.ocr
    redact := options.redact
    stripMetadata := options.stripMetadata }

/-- The object a client-side `fetch` of the conversion endpoint resolves
to: `ok` flag, `statusText`, and the body blob (as bytes). -/
structure ConvResp where
  ok : Bool
  statusText : String
  blob : List Nat
deriving Repr, DecidableEq

/-- `NutrientViewerResponse` from src/types/index.ts, as consumed by
`uploadToViewer` after `response.json()`. -/
structure NutrientViewerResponse where
  success : Bool
  documentId : Option String
  error : Option String
deriving Repr, DecidableEq

/-- The object a client-side `fetch` of the viewer-upload endpoint
resolves to. -/
structure ViewerFetchResp where
  ok : Bool
  statusText : String
  json : NutrientViewerResponse
deriving Repr, DecidableEq

/-- The pipeline outcome object `exportToPDF` / `importFromPDF` /
`redactDocument` return to the presentation layer; absent keys are
`none`, and the `viewerUrl: null` written on preview failure is also
modelled as `none`. -/
structure NutrientBuildResponse where
  success : Bool
  pdfUrl : Option String
  viewerUrl : Option String
  error : Option String
deriving Repr, DecidableEq

/-- The failure object built by the catch branch of each pipeline:
success false together with the error message. -/
def failResp (e : String) : NutrientBuildResponse :=
  { success := false, pdfUrl := none, viewerUrl := none, error := some e }

/-- The observable behaviour of one pipeline run: the returned outcome, the
instruction object serialized into the conversion request (`none` when
the run failed before building it), and whether `uploadToViewer` was
invoked. -/
structure PipelineTrace where
  result : NutrientBuildResponse
  sentInstructions : Option Instructions
  viewerCalled : Bool
deriving Repr, DecidableEq

/-- `DocumentService.uploadToViewer`: throws when the fetch itself threw,
when the response is not ok, or when the parsed body lacks
`success`/`documentId` (JavaScript-falsy check); otherwise returns the
document id. Thrown errors are the `Except.error` branch. -/
def uploadToViewer (viewerFetch : Except String ViewerFetchResp) : Except String String :=
  match viewerFetch with
  | Except.error e => Except.error e
  | Except.ok r =>
    if r.ok = false then
      Except.error ("Viewer upload failed: " ++ r.statusText)
    else if r.json.success = false ∨ truthyStr r.json.documentId = false then
      Except.error (jsOrStr r.json.error "Failed to upload to viewer")
    else
      Except.ok (jsOrStr r.json.documentId "")

/-- `DocumentService.exportToPDF`, with the document source, the
conversion fetch, `URL.createObjectURL`, and the viewer-upload fetch as
oracles. `Except.error` inputs model thrown exceptions reaching the
outer catch. -/
def exportToPDF (options : ProcessingOptions) (doc : Except String (List Nat))
    (conv : Except String ConvResp) (mkUrl : List Nat → String)
    (viewerFetch : Except String ViewerFetchResp) : PipelineTrace :=
  match doc with
  | Except.error e => { result := failResp e, sentInstructions := none, viewerCalled := false }
  | Except.ok _blob =>
    let instructions := exportInstructions options
    match conv with
    | Except.error e =>
      { result := failResp e, sentInstructions := some instructions, viewerCalled := false }
    | Except.ok r =>
      if r.ok = false then
        { result := failResp ("API call failed: " ++ r.statusText)
          sentInstructions := some instructions
          viewerCalled := false }
      else
        let pdfUrl := mkUrl r.blob
        let viewerUrl : Option String :=
          match uploadToViewer viewerFetch with
          | Except.ok documentId => some ("https://viewer.nutrient.io/documents/" ++ documentId)
          | Except.error _ => none
        { result := { success := true, pdfUrl := some pdfUrl, viewerUrl := viewerUrl, error := none }
          sentInstructions := some instructions
          viewerCalled := true }

/-- `DocumentService.redactDocument`: same pipeline as `exportToPDF` with
the redaction instruction object and a `Redaction failed:` message. -/
def redactDocument (options : ProcessingOptions) (doc : Except String (List Nat))
    (conv : Except String ConvResp) (mkUrl : List Nat → String)
    (viewerFetch : Except String ViewerFetchResp) : PipelineTrace :=
  match doc with
  | Except.error e => { result := failResp e, sentInstructions := none, viewerCalled := false }
  | Except.ok _blob =>
    let instructions := redactInstructions options
    match conv with
    | Except.error e =>
      { result := failResp e, sentInstructions := some instructions, viewerCalled := false }
    | Except.ok r =>
      if r.ok = false then
        { result := failResp ("Redaction failed: " ++ r.statusText)
          sentInstructions := some instructions
          viewerCalled := false }
      else
        let pdfUrl := mkUrl r.blob
        let viewerUrl : Option String :=
          match uploadToViewer viewerFetch with
          | Except.ok documentId => some ("https://viewer.nutrient.io/documents/" ++ documentId)
          | Except.error _ => none
        { result := { success := true, pdfUrl := some pdfUrl, viewerUrl := viewerUrl, error := none }
          sentInstructions := some instructions
          viewerCalled := true }

/-- `DocumentService.importFromPDF`: converts the picked file, inserts
the result into the document, and on success returns `{ success: true }`
with no `pdfUrl` and no viewer upload. -/
def importFromPDF (options : ProcessingOptions) (_file : List Nat)
    (conv : Except String ConvResp) (insertResult : Except String Unit) : PipelineTrace :=
  let instructions := importInstructions options
  match conv with
  | Except.error e =>
    { result := failResp e, sentInstructions := some instructions, viewerCalled := false }
  | Except.ok r =>
    if r.ok = false then
      { result := failResp ("Import failed: " ++ r.statusText)
        sentInstructions := some instructions
        viewerCalled := false }
    else
      match insertResult with
      | Except.error e =>
        { result := failResp e, sentInstructions := some instructions, viewerCalled := false }
      | Except.ok _ =>
        { result := { success := true, pdfUrl := none, viewerUrl := none, error := none }
          sentInstructions := some instructions
          viewerCalled := false }

/-- Splits a character list around its LAST dot: returns the characters
before it and the characters after it, or `none` when there is no dot. -/
def lastDotSplit : List Char → Option (List Char × List Char)
  | [] => none
  | c :: rest =>
    match lastDotSplit rest with
    | some (pre, post) => some (c :: pre, post)
    | none => if c = '.' then some ([], rest) else none

/-- The filename derivation from the build handlers:
a regex replace of the trailing extension by .pdf — when the name ends in a dot
followed by one or more characters none of which is a slash (or a dot,
automatic for the last dot), that extension is replaced by `.pdf`;
otherwise the name is returned unchanged. -/
def replaceExtPdf (s : String) : String :=
  match lastDotSplit s.data with
  | none => s
  | some (pre, post) =>
    if post ≠ [] ∧ post.all (fun c => c ≠ '/') then
      String.mk (pre ++ (String.data ".pdf"))
    else
      s

/-- Whether a string ends with the four characters `.pdf`. -/
def endsWithPdf (s : String) : Bool :=
  List.isSuffixOf (String.data ".pdf") s.data

/-- The two server-held credentials read from the environment. -/
structure Env where
  NUTRIENT_API_KEY : Option String
  NUTRIENT_VIEWER_API_KEY : Option String
deriving Repr, DecidableEq

/-- A multipart file part as the handlers see it: bytes plus the
possibly-absent `name` and `type` attributes. -/
structure FilePart where
  data : List Nat
  name : Option String
  type : Option String
deriving Repr, DecidableEq

/-- An inbound request to the Vercel build handler (api/build.ts). -/
structure BuildReq where
  method : String
  file : Option FilePart
  instructions : Option String
deriving Repr, DecidableEq

/-- What one `axios.post` to the upstream conversion service carries:
the file bytes, the filename (the file name attribute, or-defaulted to
document.docx), and the
parsed instruction object. -/
structure UpstreamCall where
  bytes : List Nat
  filename : String
  instructions : Instructions
deriving Repr, DecidableEq

/-- Outcome of an `axios.post` to the conversion upstream: a resolved
response, an axios error (with optional upstream status and body), or a
non-axios exception. -/
inductive UpstreamResult where
  | ok (status : Nat) (data : List Nat)
  | axiosErr (respStatus : Option Nat) (respData : Option String) (message : String)
  | thrown (message : String)
deriving Repr, DecidableEq

/-- Body of a build-handler response: raw bytes on success, or the JSON
error object `{ error, details? }`. -/
inductive ResBody where
  | bytes (b : List Nat)
  | jsonError (error : String) (details : Option String)
deriving Repr, DecidableEq

/-- A build-handler HTTP response: status, the two headers it may set,
and the body. -/
structure BuildRes where
  status : Nat
  contentType : Option String
  contentDisposition : Option String
  body : ResBody
deriving Repr, DecidableEq

/-- The Vercel build handler (api/build.ts), with `JSON.parse` and
`axios.post` as oracles. Returns the response together with the list of
upstream calls made (at most one). -/
def buildHandler (env : Env)
    (parseInstructions : String → Except String Instructions)
    (upstream : UpstreamCall → UpstreamResult)
    (req : BuildReq) : BuildRes × List UpstreamCall :=
  if req.method ≠ "POST" then
    (⟨405, none, none, ResBody.jsonError "Method not allowed" none⟩, [])
  else
    match env.NUTRIENT_API_KEY with
    | none => (⟨500, none, none, ResBody.jsonError "API key not configured" none⟩, [])
    | some _ =>
      match req.file with
      | none => (⟨400, none, none, ResBody.jsonError "No file provided" none⟩, [])
      | some file =>
        if truthyStr req.instructions = false then
          (⟨400, none, none, ResBody.jsonError "No instructions provided" none⟩, [])
        else
          match parseInstructions (jsOrStr req.instructions "") with
          | Except.error msg =>
            (⟨500, none, none, ResBody.jsonError "Internal server error" (some msg)⟩, [])
          | Except.ok instructions =>
            let call : UpstreamCall :=
              { bytes := file.data
                filename := jsOrStr file.name "document.docx"
                instructions := instructions }
            match upstream call with
            | UpstreamResult.ok _status data =>
              (⟨200, some "application/pdf",
                some ("attachment; filename=\"" ++ replaceExtPdf (jsOrStr file.name "document") ++ "\""),
                ResBody.bytes data⟩, [call])
            | UpstreamResult.axiosErr respStatus respData message =>
              (⟨jsOrStatus respStatus, none, none,
                ResBody.jsonError "Nutrient.io API error" (some (jsOrStr respData message))⟩, [call])
            | UpstreamResult.thrown message =>
              (⟨500, none, none, ResBody.jsonError "Internal server error" (some message)⟩, [call])

/-- The JSON object the viewer upstream resolves with; the handler looks
at its `document_id` and `id` fields. -/
structure UpstreamViewerData where
  document_id : Option String
  id : Option String
deriving Repr, DecidableEq

/-- Outcome of the `axios.post` to the viewer upstream. -/
inductive ViewerUpstreamResult where
  | ok (data : UpstreamViewerData)
  | axiosErr (respStatus : Option Nat) (respData : Option String) (message : String)
  | thrown (message : String)
deriving Repr, DecidableEq

/-- Body of a viewer-upload response: the success JSON
`{ success, documentId? }` (with `documentId` dropped by
`JSON.stringify` when undefined), or the error JSON. -/
inductive ViewerBody where
  | okBody (success : Bool) (documentId : Option String)
  | errBody (error : String) (details : Option String)
deriving Repr, DecidableEq

/-- A viewer-upload HTTP response. -/
structure ViewerRes where
  status : Nat
  body : ViewerBody
deriving Repr, DecidableEq

/-- The Azure viewer-upload handler (azure-functions/src/viewer-upload.ts),
with `axios.post` as an oracle. Returns the response together with the
byte payloads of the upstream calls made (at most one). -/
def viewerUploadHandler (env : Env)
    (upstream : List Nat → ViewerUpstreamResult)
    (file : Option FilePart) : ViewerRes × List (List Nat) :=
  match env.NUTRIENT_VIEWER_API_KEY with
  | none => (⟨500, ViewerBody.errBody "Viewer API key not configured" none⟩, [])
  | some _ =>
    match file with
    | none => (⟨400, ViewerBody.errBody "No valid file provided" none⟩, [])
    | some f =>
      match upstream f.data with
      | ViewerUpstreamResult.ok data =>
        (⟨200, ViewerBody.okBody true (jsOrOpt data.document_id data.id)⟩, [f.data])
      | ViewerUpstreamResult.axiosErr respStatus respData message =>
        (⟨jsOrStatus respStatus,
          ViewerBody.errBody "Nutrient.io Viewer API error" (some (jsOrStr respData message))⟩, [f.data])
      | ViewerUpstreamResult.thrown message =>
        (⟨500, ViewerBody.errBody "Internal server error" (some message)⟩, [f.data])

/-! Concrete sample values for witnesses and counterexamples. -/

/-- Environment with both credentials present. -/
def sampleEnv : Env :=
  { NUTRIENT_API_KEY := some "k", NUTRIENT_VIEWER_API_KEY := some "vk" }

/-- Environment missing the conversion credential only. -/
def envMissingApiKey : Env :=
  { NUTRIENT_API_KEY := none, NUTRIENT_VIEWER_API_KEY := some "vk" }

/-- Environment missing the viewer credential only. -/
def envMissingViewerKey : Env :=
  { NUTRIENT_API_KEY := some "k", NUTRIENT_VIEWER_API_KEY := none }

/-- Processing options with every optional field absent. -/
def sampleOptions : ProcessingOptions :=
  { format := none, ocr := none, redact := none, stripMetadata := none }

/-- An instruction object with every field absent. -/
def emptyInstr : Instructions :=
  { action := none, format := none, ocr := none, redact := none, stripMetadata := none }

/-- The instruction object built by `importFromPDF` for all-absent
options: the import path requests a docx target. -/
def importInstrSample : Instructions :=
  { action := some "import", format := some "docx", ocr := some false,
    redact := none, stripMetadata := none }

/-- A successful conversion fetch response. -/
def sampleConvOk : ConvResp := { ok := true, statusText := "OK", blob := [1, 2] }

/-- A failed (non-ok) conversion fetch response. -/
def sampleConvBad : ConvResp := { ok := false, statusText := "Service Unavailable", blob := [] }

/-- A mock `URL.createObjectURL`. -/
def mockUrl : List Nat → String := fun _ => "blob:mock-url"

/-- A viewer-upload fetch that resolves with a non-ok response. -/
def sampleVfFail : Except String ViewerFetchResp :=
  Except.ok { ok := false, statusText := "Internal Server Error",
              json := { success := false, documentId := none, error := none } }

/-- A viewer-upload fetch that resolves successfully with a document id. -/
def sampleVfOk : Except String ViewerFetchResp :=
  Except.ok { ok := true, statusText := "OK",
              json := { success := true, documentId := some "doc123", error := none } }

/-- A sample PDF file part. -/
def samplePdfFile : FilePart :=
  { data := [1], name := some "document.pdf", type := some "application/pdf" }

/-- A file part whose name has no extension. -/
def scanFile : FilePart := { data := [9], name := some "scan", type := none }

/-- A sample docx file part. -/
def sampleDocxFile : FilePart := { data := [3, 4], name := some "report.docx", type := none }

/-- A parse oracle that always succeeds with the empty instruction object. -/
def parseOk : String → Except String Instructions := fun _ => Except.ok emptyInstr

/-- A parse oracle that always fails, as `JSON.parse` does on a
non-JSON string. -/
def parseFail : String → Except String Instructions :=
  fun _ => Except.error "Unexpected token"

/-- A parse oracle yielding the import-path instruction object. -/
def parseImport : String → Except String Instructions := fun _ => Except.ok importInstrSample

/-- An upstream conversion service that echoes the bytes it was sent. -/
def echoUp : UpstreamCall → UpstreamResult := fun c => UpstreamResult.ok 200 c.bytes

/-- An upstream conversion service returning a fixed byte payload. -/
def constUp : UpstreamCall → UpstreamResult := fun _ => UpstreamResult.ok 200 [7]

/-- A viewer upstream whose success JSON carries neither identifier field. -/
def vupNeither : List Nat → ViewerUpstreamResult :=
  fun _ => ViewerUpstreamResult.ok { document_id := none, id := none }

/-- A viewer upstream whose success JSON carries a document_id. -/
def vupDoc123 : List Nat → ViewerUpstreamResult :=
  fun _ => ViewerUpstreamResult.ok { document_id := some "doc123", id := none }

/-- A successful content insertion (import path). -/
def insertOk : Except String Unit := Except.ok ()

/-- Mixed-presence options as the export tab produces them: format and
ocr present, redact and stripMetadata absent. -/
def exportTabOptions : ProcessingOptions :=
  { format := some "pdf", ocr := some true, redact := none, stripMetadata := none }

/-- Mixed-presence options as the redact tab produces them: redact and
stripMetadata present, format and ocr absent. -/
def redactTabOptions : ProcessingOptions :=
  { format := none, ocr := none, redact := some true, stripMetadata := some true }

/-! Theorems. -/

/-- Any list is a suffix of itself prepended with anything (Bool form). -/
theorem isSuffixOf_append_self (l pre : List Char) : List.isSuffixOf l (pre ++ l) = true := by
  rw [List.isSuffixOf_iff_suffix]
  exact List.suffix_append pre l

/-- Claim C1: in every pipeline run (exportToPDF or redactDocument) whose
conversion call succeeds, if the subsequent viewer upload fails for any
reason, the run still returns success true with the pdfUrl present and
the viewer URL absent; the preview failure never fails the pipeline. -/
theorem c1_preview_failure_is_soft
    (options : ProcessingOptions) (blob : List Nat) (r : ConvResp)
    (mkUrl : List Nat → String) (vf : Except String ViewerFetchResp)
    (hok : r.ok = true)
    (hfail : ∃ e, uploadToViewer vf = Except.error e) :
    ((exportToPDF options (Except.ok blob) (Except.ok r) mkUrl vf).result.success = true ∧
     (exportToPDF options (Except.ok blob) (Except.ok r) mkUrl vf).result.pdfUrl = some (mkUrl r.blob) ∧
     (exportToPDF options (Except.ok blob) (Except.ok r) mkUrl vf).result.viewerUrl = none) ∧
    ((redactDocument options (Except.ok blob) (Except.ok r) mkUrl vf).result.success = true ∧
     (redactDocument options (Except.ok blob) (Except.ok r) mkUrl vf).result.pdfUrl = some (mkUrl r.blob) ∧
     (redactDocument options (Except.ok blob) (Except.ok r) mkUrl vf).result.viewerUrl = none) := by
  obtain ⟨e, he⟩ := hfail
  simp [exportToPDF, redactDocument, hok, he]

/-- Witness for C1 at concrete inputs: the conversion succeeds, the
viewer upload resolves with a non-ok response, and both pipelines still
succeed with the artifact URL present and the viewer URL absent. -/
theorem c1_preview_failure_is_soft_witness :
    ((exportToPDF sampleOptions (Except.ok [0]) (Except.ok sampleConvOk) mockUrl sampleVfFail).result.success = true ∧
     (exportToPDF sampleOptions (Except.ok [0]) (Except.ok sampleConvOk) mockUrl sampleVfFail).result.pdfUrl = some (mockUrl sampleConvOk.blob) ∧
     (exportToPDF sampleOptions (Except.ok [0]) (Except.ok sampleConvOk) mockUrl sampleVfFail).result.viewerUrl = none) ∧
    ((redactDocument sampleOptions (Except.ok [0]) (Except.ok sampleConvOk) mockUrl sampleVfFail).result.success = true ∧
     (redactDocument sampleOptions (Except.ok [0]) (Except.ok sampleConvOk) mockUrl sampleVfFail).result.pdfUrl = some (mockUrl sampleConvOk.blob) ∧
     (redactDocument sampleOptions (Except.ok [0]) (Except.ok sampleConvOk) mockUrl sampleVfFail).result.viewerUrl = none) :=
  c1_preview_failure_is_soft sampleOptions [0] sampleConvOk mockUrl sampleVfFail rfl
    ⟨"Viewer upload failed: Internal Server Error", rfl⟩

/-- Claim C2: in every pipeline run (exportToPDF or redactDocument) whose
conversion call fails — a thrown error or a non-ok response — the run
returns success false carrying that error, and the viewer upload is
never invoked. -/
theorem c2_conversion_failure_aborts
    (options : ProcessingOptions) (blob : List Nat) (e : String) (r : ConvResp)
    (mkUrl : List Nat → String) (vf : Except String ViewerFetchResp)
    (hbad : r.ok = false) :
    ((exportToPDF options (Except.ok blob) (Except.error e) mkUrl vf).result = failResp e ∧
     (exportToPDF options (Except.ok blob) (Except.error e) mkUrl vf).viewerCalled = false) ∧
    ((exportToPDF options (Except.ok blob) (Except.ok r) mkUrl vf).result =
        failResp ("API call failed: " ++ r.statusText) ∧
     (exportToPDF options (Except.ok blob) (Except.ok r) mkUrl vf).viewerCalled = false) ∧
    ((redactDocument options (Except.ok blob) (Except.error e) mkUrl vf).result = failResp e ∧
     (redactDocument options (Except.ok blob) (Except.error e) mkUrl vf).viewerCalled = false) ∧
    ((redactDocument options (Except.ok blob) (Except.ok r) mkUrl vf).result =
        failResp ("Redaction failed: " ++ r.statusText) ∧
     (redactDocument options (Except.ok blob) (Except.ok r) mkUrl vf).viewerCalled = false) := by
  simp [exportToPDF, redactDocument, hbad]

/-- Witness for C2 at concrete inputs: a thrown fetch error and a 503-style
non-ok response both fail the pipeline without invoking the viewer upload. -/
theorem c2_conversion_failure_aborts_witness :
    ((exportToPDF sampleOptions (Except.ok [0]) (Except.error "Failed to fetch") mockUrl sampleVfOk).result = failResp "Failed to fetch" ∧
     (exportToPDF sampleOptions (Except.ok [0]) (Except.error "Failed to fetch") mockUrl sampleVfOk).viewerCalled = false) ∧
    ((exportToPDF sampleOptions (Except.ok [0]) (Except.ok sampleConvBad) mockUrl sampleVfOk).result =
        failResp ("API call failed: " ++ sampleConvBad.statusText) ∧
     (exportToPDF sampleOptions (Except.ok [0]) (Except.ok sampleConvBad) mockUrl sampleVfOk).viewerCalled = false) ∧
    ((redactDocument sampleOptions (Except.ok [0]) (Except.error "Failed to fetch") mockUrl sampleVfOk).result = failResp "Failed to fetch" ∧
     (redactDocument sampleOptions (Except.ok [0]) (Except.error "Failed to fetch") mockUrl sampleVfOk).viewerCalled = false) ∧
    ((redactDocument sampleOptions (Except.ok [0]) (Except.ok sampleConvBad) mockUrl sampleVfOk).result =
        failResp ("Redaction failed: " ++ sampleConvBad.statusText) ∧
     (redactDocument sampleOptions (Except.ok [0]) (Except.ok sampleConvBad) mockUrl sampleVfOk).viewerCalled = false) :=
  c2_conversion_failure_aborts sampleOptions [0] "Failed to fetch" sampleConvBad mockUrl sampleVfOk rfl

/-- Counterexample to C3: when the viewer upstream succeeds with a JSON
body containing neither document_id nor id, the Preview Relay does NOT
return an UpstreamError — it returns HTTP 200 with success true and the
documentId absent. -/
theorem c3_counterexample :
    viewerUploadHandler sampleEnv vupNeither (some samplePdfFile) =
      (⟨200, ViewerBody.okBody true none⟩, [samplePdfFile.data]) := rfl

/-- Claim C3 (amended): the Preview Relay extracts the identifier from
document_id when that field is present and truthy, otherwise falls back
to id; when neither field is present it still returns HTTP 200 with
success true and documentId absent, rather than an UpstreamError. -/
theorem c3_identifier_extraction
    (env : Env) (k : String) (up : List Nat → ViewerUpstreamResult)
    (f : FilePart) (data : UpstreamViewerData)
    (hkey : env.NUTRIENT_VIEWER_API_KEY = some k)
    (hup : up f.data = ViewerUpstreamResult.ok data) :
    (truthyStr data.document_id = true →
      (viewerUploadHandler env up (some f)).1.body = ViewerBody.okBody true data.document_id) ∧
    (data.document_id = none →
      (viewerUploadHandler env up (some f)).1.body = ViewerBody.okBody true data.id) ∧
    (data.document_id = none → data.id = none →
      (viewerUploadHandler env up (some f)).1 = ⟨200, ViewerBody.okBody true none⟩) := by
  refine ⟨?_, ?_, ?_⟩
  · intro htr
    cases hdoc : data.document_id with
    | none => rw [hdoc] at htr; simp [truthyStr] at htr
    | some s =>
      rw [hdoc] at htr
      simp only [truthyStr, ne_eq, decide_eq_true_eq] at htr
      simp [viewerUploadHandler, hkey, hup, jsOrOpt, hdoc, htr]
  · intro hdoc
    simp [viewerUploadHandler, hkey, hup, jsOrOpt, hdoc]
  · intro hdoc hid
    simp [viewerUploadHandler, hkey, hup, jsOrOpt, hdoc, hid]

/-- Witness for C3 (amended) at concrete inputs: upstream success JSON
with document_id doc123 and no id field. -/
theorem c3_identifier_extraction_witness :
    (truthyStr (some "doc123") = true →
      (viewerUploadHandler sampleEnv vupDoc123 (some samplePdfFile)).1.body =
        ViewerBody.okBody true (some "doc123")) ∧
    ((some "doc123" : Option String) = none →
      (viewerUploadHandler sampleEnv vupDoc123 (some samplePdfFile)).1.body =
        ViewerBody.okBody true none) ∧
    ((some "doc123" : Option String) = none → (none : Option String) = none →
      (viewerUploadHandler sampleEnv vupDoc123 (some samplePdfFile)).1 =
        ⟨200, ViewerBody.okBody true none⟩) :=
  c3_identifier_extraction sampleEnv "vk" vupDoc123 samplePdfFile
    { document_id := some "doc123", id := none } rfl rfl

/-- Counterexample to C4: a /convert request carrying a file and a
present-but-unparseable instructions field is answered with HTTP 500 and
the error message Internal server error — not with a 400 about
instructions — and no upstream call is made. -/
theorem c4_counterexample :
    buildHandler sampleEnv parseFail echoUp
      { method := "POST", file := some sampleDocxFile, instructions := some "not json" } =
    (⟨500, none, none, ResBody.jsonError "Internal server error" (some "Unexpected token")⟩, []) := rfl

/-- Claim C4 (amended): a /convert request carrying a file whose
instructions field is missing (or empty) is answered with 400 and the
message No instructions provided, with no upstream call; a request whose
instructions field is present but unparseable is answered with 500 and
the message Internal server error carrying the parse error as details,
also with no upstream call. -/
theorem c4_instructions_validation
    (env : Env) (k : String) (parse : String → Except String Instructions)
    (up : UpstreamCall → UpstreamResult) (file : FilePart)
    (hkey : env.NUTRIENT_API_KEY = some k) :
    (buildHandler env parse up { method := "POST", file := some file, instructions := none } =
      (⟨400, none, none, ResBody.jsonError "No instructions provided" none⟩, [])) ∧
    (buildHandler env parse up { method := "POST", file := some file, instructions := some "" } =
      (⟨400, none, none, ResBody.jsonError "No instructions provided" none⟩, [])) ∧
    (∀ (s msg : String), s ≠ "" → parse s = Except.error msg →
      buildHandler env parse up { method := "POST", file := some file, instructions := some s } =
        (⟨500, none, none, ResBody.jsonError "Internal server error" (some msg)⟩, [])) := by
  refine ⟨?_, ?_, ?_⟩
  · simp [buildHandler, hkey, truthyStr]
  · simp [buildHandler, hkey, truthyStr]
  · intro s msg hs hparse
    simp [buildHandler, hkey, truthyStr, hs, jsOrStr, hparse]

/-- Witness for C4 (amended) at concrete inputs. -/
theorem c4_instructions_validation_witness :
    (buildHandler sampleEnv parseFail echoUp
        { method := "POST", file := some sampleDocxFile, instructions := none } =
      (⟨400, none, none, ResBody.jsonError "No instructions provided" none⟩, [])) ∧
    (buildHandler sampleEnv parseFail echoUp
        { method := "POST", file := some sampleDocxFile, instructions := some "" } =
      (⟨400, none, none, ResBody.jsonError "No instructions provided" none⟩, [])) ∧
    (∀ (s msg : String), s ≠ "" → parseFail s = Except.error msg →
      buildHandler sampleEnv parseFail echoUp
          { method := "POST", file := some sampleDocxFile, instructions := some s } =
        (⟨500, none, none, ResBody.jsonError "Internal server error" (some msg)⟩, [])) :=
  c4_instructions_validation sampleEnv "k" parseFail echoUp sampleDocxFile rfl

/-- Counterexample to C5: for the source name scan, which has no
extension, the suggested filename stays scan — it does not become
scan.pdf, and it does not end in .pdf — as exhibited both on the
derivation function and on the full handler response. -/
theorem c5_counterexample :
    replaceExtPdf "scan" = "scan" ∧
    endsWithPdf (replaceExtPdf "scan") = false ∧
    (buildHandler sampleEnv parseOk echoUp
        { method := "POST", file := some scanFile, instructions := some "x" }).1.contentDisposition =
      some "attachment; filename=\"scan\"" :=
  ⟨rfl, rfl, rfl⟩

/-- Claim C5 (amended): when the source name has an extension — a final
dot followed by at least one character, none of which is a slash — the
suggested filename attached to a successful conversion replaces that
extension with .pdf and therefore ends in .pdf; a source name with no
such extension is passed through unchanged (scan stays scan). -/
theorem c5_filename_derivation
    (env : Env) (k : String) (parse : String → Except String Instructions)
    (up : UpstreamCall → UpstreamResult) (file : FilePart) (s : String)
    (instr : Instructions) (st : Nat) (d : List Nat)
    (pre post : List Char)
    (hkey : env.NUTRIENT_API_KEY = some k) (hs : s ≠ "")
    (hparse : parse s = Except.ok instr)
    (hup : ∀ c, up c = UpstreamResult.ok st d)
    (hsplit : lastDotSplit (jsOrStr file.name "document").data = some (pre, post))
    (hpost : post ≠ []) (hslash : post.all (fun c => c ≠ '/') = true) :
    (buildHandler env parse up
        { method := "POST", file := some file, instructions := some s }).1.contentDisposition
      = some ("attachment; filename=\"" ++ String.mk (pre ++ (String.data ".pdf")) ++ "\"") ∧
    endsWithPdf (String.mk (pre ++ (String.data ".pdf"))) = true ∧
    (∀ t : String, lastDotSplit t.data = none → replaceExtPdf t = t) := by
  have hmem : '/' ∉ post := by
    intro hin
    have hx := List.all_eq_true.mp hslash _ hin
    simp at hx
  have hrepl : replaceExtPdf (jsOrStr file.name "document") = String.mk (pre ++ (String.data ".pdf")) := by
    simp [replaceExtPdf, hsplit, hpost, hmem]
  refine ⟨?_, ?_, ?_⟩
  · have hj : jsOrStr (some s) "" = s := by simp [jsOrStr, hs]
    simp [buildHandler, hkey, truthyStr, hs, hj, hparse, hup, hrepl]
  · simp only [endsWithPdf]
    exact isSuffixOf_append_self (String.data ".pdf") pre
  · intro t ht
    simp [replaceExtPdf, ht]

/-- Witness for C5 (amended) at the concrete source name report.docx:
the suggested filename is report.pdf. -/
theorem c5_filename_derivation_witness :
    (buildHandler sampleEnv parseOk constUp
        { method := "POST", file := some sampleDocxFile, instructions := some "x" }).1.contentDisposition
      = some ("attachment; filename=\"" ++ String.mk ((String.data "report") ++ (String.data ".pdf")) ++ "\"") ∧
    endsWithPdf (String.mk ((String.data "report") ++ (String.data ".pdf"))) = true ∧
    (∀ t : String, lastDotSplit t.data = none → replaceExtPdf t = t) :=
  c5_filename_derivation sampleEnv "k" parseOk constUp sampleDocxFile "x"
    emptyInstr 200 [7] (String.data "report") (String.data "docx")
    rfl (by decide) rfl (fun _ => rfl) rfl (by decide) (by decide)

/-- Counterexample to C6: in redactDocument, with every optional field
absent from the options, the instruction object actually sent upstream
has stripMetadata true (not false) and no ocr field at all. -/
theorem c6_counterexample :
    (redactDocument sampleOptions (Except.ok [0]) (Except.ok sampleConvOk) mockUrl sampleVfOk).sentInstructions =
      some { action := some "redact", format := some "pdf", ocr := none,
             redact := some true, stripMetadata := some true } := rfl

/-- Claim C6 (amended): for every ProcessingOptions value and each
optional boolean field considered independently of the others — so
mixed-presence options are covered — an absent ocr, redact or
stripMetadata is serialized as false by exportToPDF; in redactDocument
an absent redact or stripMetadata is serialized as true (the redaction
operation enables them by design) and an absent ocr is omitted from the
instructions entirely. In both pipelines the serialized object is the
one sent with the conversion request, for arbitrary options. -/
theorem c6_absent_option_serialization
    (oA oB oC options : ProcessingOptions) (blob : List Nat)
    (conv : Except String ConvResp) (mkUrl : List Nat → String)
    (vf : Except String ViewerFetchResp)
    (hocr : oA.ocr = none) (hred : oB.redact = none)
    (hstrip : oC.stripMetadata = none) :
    (exportInstructions oA).ocr = some false ∧
    (exportInstructions oB).redact = some false ∧
    (exportInstructions oC).stripMetadata = some false ∧
    (redactInstructions oB).redact = some true ∧
    (redactInstructions oC).stripMetadata = some true ∧
    (redactInstructions oA).ocr = none ∧
    (exportToPDF options (Except.ok blob) conv mkUrl vf).sentInstructions = some (exportInstructions options) ∧
    (redactDocument options (Except.ok blob) conv mkUrl vf).sentInstructions = some (redactInstructions options) := by
  refine ⟨?_, ?_, ?_, ?_, ?_, ?_, ?_, ?_⟩
  · simp [exportInstructions, jsOrBool, hocr]
  · simp [exportInstructions, jsOrBool, hred]
  · simp [exportInstructions, jsOrBool, hstrip]
  · simp [redactInstructions, spreadField, hred]
  · simp [redactInstructions, spreadField, jsOrBool, hstrip]
  · simp [redactInstructions, hocr]
  · cases conv with
    | error e => rfl
    | ok r =>
      by_cases h : r.ok = false
      · simp [exportToPDF, h]
      · simp [exportToPDF, h]
  · cases conv with
    | error e => rfl
    | ok r =>
      by_cases h : r.ok = false
      · simp [redactDocument, h]
      · simp [redactDocument, h]

/-- Witness for C6 (amended) at mixed-presence options: the redact-tab
options leave only ocr absent, the export-tab options leave redact and
stripMetadata absent while format and ocr are present. -/
theorem c6_absent_option_serialization_witness :
    (exportInstructions redactTabOptions).ocr = some false ∧
    (exportInstructions exportTabOptions).redact = some false ∧
    (exportInstructions exportTabOptions).stripMetadata = some false ∧
    (redactInstructions exportTabOptions).redact = some true ∧
    (redactInstructions exportTabOptions).stripMetadata = some true ∧
    (redactInstructions redactTabOptions).ocr = none ∧
    (exportToPDF sampleOptions (Except.ok [0]) (Except.ok sampleConvOk) mockUrl sampleVfOk).sentInstructions = some (exportInstructions sampleOptions) ∧
    (redactDocument sampleOptions (Except.ok [0]) (Except.ok sampleConvOk) mockUrl sampleVfOk).sentInstructions = some (redactInstructions sampleOptions) :=
  c6_absent_option_serialization redactTabOptions exportTabOptions exportTabOptions sampleOptions
    [0] (Except.ok sampleConvOk) mockUrl sampleVfOk rfl rfl rfl

/-- Counterexample to C7: importFromPDF is also an outcome the core
returns to the presentation layer, and its success path yields success
true with NO pdfUrl. -/
theorem c7_counterexample :
    (importFromPDF sampleOptions [1] (Except.ok sampleConvOk) insertOk).result =
      { success := true, pdfUrl := none, viewerUrl := none, error := none } := rfl

/-- Claim C7 (amended): for the exportToPDF and redactDocument outcomes,
success true implies the pdfUrl is present (the viewer URL remaining
optional); the importFromPDF outcome, whose artifact is inserted into
the document instead, reports success true with pdfUrl absent. -/
theorem c7_success_implies_artifact
    (o1 o2 o3 : ProcessingOptions) (d1 d2 : Except String (List Nat))
    (k1 k2 k3 : Except String ConvResp) (u1 u2 : List Nat → String)
    (v1 v2 : Except String ViewerFetchResp) (f3 : List Nat) (i3 : Except String Unit)
    (h1 : (exportToPDF o1 d1 k1 u1 v1).result.success = true)
    (h2 : (redactDocument o2 d2 k2 u2 v2).result.success = true)
    (h3 : (importFromPDF o3 f3 k3 i3).result.success = true) :
    ((exportToPDF o1 d1 k1 u1 v1).result.pdfUrl).isSome = true ∧
    ((redactDocument o2 d2 k2 u2 v2).result.pdfUrl).isSome = true ∧
    (importFromPDF o3 f3 k3 i3).result.pdfUrl = none := by
  refine ⟨?_, ?_, ?_⟩
  · cases d1 with
    | error e => simp [exportToPDF, failResp] at h1
    | ok blob =>
      cases k1 with
      | error e => simp [exportToPDF, failResp] at h1
      | ok r =>
        by_cases h : r.ok = false
        · simp [exportToPDF, failResp, h] at h1
        · simp [exportToPDF, h]
  · cases d2 with
    | error e => simp [redactDocument, failResp] at h2
    | ok blob =>
      cases k2 with
      | error e => simp [redactDocument, failResp] at h2
      | ok r =>
        by_cases h : r.ok = false
        · simp [redactDocument, failResp, h] at h2
        · simp [redactDocument, h]
  · cases k3 with
    | error e => simp [importFromPDF, failResp] at h3
    | ok r =>
      by_cases h : r.ok = false
      · simp [importFromPDF, failResp, h] at h3
      · cases i3 with
        | error e => simp [importFromPDF, failResp, h] at h3
        | ok u => simp [importFromPDF, h]

/-- Witness for C7 (amended) at concrete successful runs of all three
pipelines. -/
theorem c7_success_implies_artifact_witness :
    ((exportToPDF sampleOptions (Except.ok [0]) (Except.ok sampleConvOk) mockUrl sampleVfOk).result.pdfUrl).isSome = true ∧
    ((redactDocument sampleOptions (Except.ok [0]) (Except.ok sampleConvOk) mockUrl sampleVfFail).result.pdfUrl).isSome = true ∧
    (importFromPDF sampleOptions [1] (Except.ok sampleConvOk) insertOk).result.pdfUrl = none :=
  c7_success_implies_artifact sampleOptions sampleOptions sampleOptions
    (Except.ok [0]) (Except.ok [0])
    (Except.ok sampleConvOk) (Except.ok sampleConvOk) (Except.ok sampleConvOk)
    mockUrl mockUrl sampleVfOk sampleVfFail [1] insertOk rfl rfl rfl

/-- Claim C8: when the conversion credential is absent the Conversion
Proxy answers any POST request with 500 and an API-key-not-configured
message, making zero upstream calls; the Preview Relay performs the same
precheck against its own distinct viewer credential, and an environment
missing only the conversion credential does not trip the Preview Relay
precheck. -/
theorem c8_credential_precheck
    (envNoKey envNoViewerKey : Env) (k : String)
    (parse : String → Except String Instructions)
    (up : UpstreamCall → UpstreamResult)
    (vup : List Nat → ViewerUpstreamResult)
    (req : BuildReq) (f : Option FilePart)
    (hmethod : req.method = "POST")
    (h1 : envNoKey.NUTRIENT_API_KEY = none)
    (h1v : envNoKey.NUTRIENT_VIEWER_API_KEY = some k)
    (h2 : envNoViewerKey.NUTRIENT_VIEWER_API_KEY = none) :
    buildHandler envNoKey parse up req =
      (⟨500, none, none, ResBody.jsonError "API key not configured" none⟩, []) ∧
    viewerUploadHandler envNoViewerKey vup f =
      (⟨500, ViewerBody.errBody "Viewer API key not configured" none⟩, []) ∧
    viewerUploadHandler envNoKey vup none =
      (⟨400, ViewerBody.errBody "No valid file provided" none⟩, []) := by
  refine ⟨?_, ?_, ?_⟩
  · simp [buildHandler, hmethod, h1]
  · simp [viewerUploadHandler, h2]
  · simp [viewerUploadHandler, h1v]

/-- Witness for C8 at concrete environments and a concrete POST request. -/
theorem c8_credential_precheck_witness :
    buildHandler envMissingApiKey parseOk echoUp
        { method := "POST", file := some sampleDocxFile, instructions := some "x" } =
      (⟨500, none, none, ResBody.jsonError "API key not configured" none⟩, []) ∧
    viewerUploadHandler envMissingViewerKey vupDoc123 (some samplePdfFile) =
      (⟨500, ViewerBody.errBody "Viewer API key not configured" none⟩, []) ∧
    viewerUploadHandler envMissingApiKey vupDoc123 none =
      (⟨400, ViewerBody.errBody "No valid file provided" none⟩, []) :=
  c8_credential_precheck envMissingApiKey envMissingViewerKey "vk" parseOk echoUp vupDoc123
    { method := "POST", file := some sampleDocxFile, instructions := some "x" }
    (some samplePdfFile) rfl rfl rfl rfl

/-- Claim C9: when the upstream conversion service answers every call by
returning exactly the bytes it was sent, the Conversion Proxy response
is a 200 whose body is byte-for-byte the submitted file bytes — the
proxy relays the upstream bytes verbatim. -/
theorem c9_roundtrip
    (env : Env) (k : String) (parse : String → Except String Instructions)
    (up : UpstreamCall → UpstreamResult) (file : FilePart) (s : String)
    (instr : Instructions) (st : Nat)
    (hkey : env.NUTRIENT_API_KEY = some k)
    (hs : s ≠ "")
    (hparse : parse s = Except.ok instr)
    (hecho : ∀ c, up c = UpstreamResult.ok st c.bytes) :
    (buildHandler env parse up { method := "POST", file := some file, instructions := some s }).1.body
      = ResBody.bytes file.data ∧
    (buildHandler env parse up { method := "POST", file := some file, instructions := some s }).1.status = 200 := by
  have hj : jsOrStr (some s) "" = s := by simp [jsOrStr, hs]
  constructor
  · simp [buildHandler, hkey, truthyStr, hs, hj, hparse, hecho]
  · simp [buildHandler, hkey, truthyStr, hs, hj, hparse, hecho]

/-- Witness for C9 at a concrete file and the echoing upstream. -/
theorem c9_roundtrip_witness :
    (buildHandler sampleEnv parseOk echoUp
        { method := "POST", file := some sampleDocxFile, instructions := some "x" }).1.body
      = ResBody.bytes sampleDocxFile.data ∧
    (buildHandler sampleEnv parseOk echoUp
        { method := "POST", file := some sampleDocxFile, instructions := some "x" }).1.status = 200 :=
  c9_roundtrip sampleEnv "k" parseOk echoUp sampleDocxFile "x" emptyInstr 200
    rfl (by decide) rfl (fun _ => rfl)

/-- Counterexample to C10: with import instructions (action import,
format docx) and the extensionless source name scan, the success
response still declares Content-Type application/pdf, but its attachment
filename is scan, which does not end in .pdf — so the claimed
unconditional .pdf attachment filename fails. -/
theorem c10_counterexample :
    ((buildHandler sampleEnv parseImport echoUp
        { method := "POST", file := some scanFile, instructions := some "x" }).1.contentType =
      some "application/pdf") ∧
    ((buildHandler sampleEnv parseImport echoUp
        { method := "POST", file := some scanFile, instructions := some "x" }).1.contentDisposition =
      some "attachment; filename=\"scan\"") ∧
    endsWithPdf "scan" = false :=
  ⟨rfl, rfl, rfl⟩

/-- Claim C10 (amended): every successful /convert response declares
Content-Type application/pdf regardless of the submitted instructions,
and its attachment filename depends only on the source filename, never
on the instructions — two successful runs over the same file with
different instruction payloads produce identical Content-Type and
Content-Disposition headers; the filename ends in .pdf whenever the
source name has an extension, but not necessarily otherwise. -/
theorem c10_media_type_independent_of_instructions
    (env : Env) (k : String) (parse : String → Except String Instructions)
    (up1 up2 : UpstreamCall → UpstreamResult) (file : FilePart)
    (s1 s2 : String) (i1 i2 : Instructions) (st1 st2 : Nat) (d1 d2 : List Nat)
    (hkey : env.NUTRIENT_API_KEY = some k)
    (hs1 : s1 ≠ "") (hs2 : s2 ≠ "")
    (hp1 : parse s1 = Except.ok i1) (hp2 : parse s2 = Except.ok i2)
    (hu1 : ∀ c, up1 c = UpstreamResult.ok st1 d1)
    (hu2 : ∀ c, up2 c = UpstreamResult.ok st2 d2) :
    (buildHandler env parse up1 { method := "POST", file := some file, instructions := some s1 }).1.contentType
      = some "application/pdf" ∧
    (buildHandler env parse up2 { method := "POST", file := some file, instructions := some s2 }).1.contentType
      = some "application/pdf" ∧
    (buildHandler env parse up1 { method := "POST", file := some file, instructions := some s1 }).1.contentDisposition
      = (buildHandler env parse up2 { method := "POST", file := some file, instructions := some s2 }).1.contentDisposition ∧
    (∀ pre post, lastDotSplit (jsOrStr file.name "document").data = some (pre, post) →
      post ≠ [] → post.all (fun c => c ≠ '/') = true →
      endsWithPdf (replaceExtPdf (jsOrStr file.name "document")) = true) := by
  have hj1 : jsOrStr (some s1) "" = s1 := by simp [jsOrStr, hs1]
  have hj2 : jsOrStr (some s2) "" = s2 := by simp [jsOrStr, hs2]
  refine ⟨?_, ?_, ?_, ?_⟩
  · simp [buildHandler, hkey, truthyStr, hs1, hj1, hp1, hu1]
  · simp [buildHandler, hkey, truthyStr, hs2, hj2, hp2, hu2]
  · simp [buildHandler, hkey, truthyStr, hs1, hs2, hj1, hj2, hp1, hp2, hu1, hu2]
  · intro pre post hsplit hpost hslash
    have hmem : '/' ∉ post := by
      intro hin
      have hx := List.all_eq_true.mp hslash _ hin
      simp at hx
    have hrepl : replaceExtPdf (jsOrStr file.name "document") = String.mk (pre ++ (String.data ".pdf")) := by
      simp [replaceExtPdf, hsplit, hpost, hmem]
    rw [hrepl]
    simp only [endsWithPdf]
    exact isSuffixOf_append_self (String.data ".pdf") pre

/-- Witness for C10 (amended): the same report.docx file converted under
empty instructions and under import instructions yields identical
success headers. -/
theorem c10_media_type_independent_of_instructions_witness :
    (buildHandler sampleEnv parseOk constUp
        { method := "POST", file := some sampleDocxFile, instructions := some "x" }).1.contentType
      = some "application/pdf" ∧
    (buildHandler sampleEnv parseOk constUp
        { method := "POST", file := some sampleDocxFile, instructions := some "y" }).1.contentType
      = some "application/pdf" ∧
    (buildHandler sampleEnv parseOk constUp
        { method := "POST", file := some sampleDocxFile, instructions := some "x" }).1.contentDisposition
      = (buildHandler sampleEnv parseOk constUp
          { method := "POST", file := some sampleDocxFile, instructions := some "y" }).1.contentDisposition ∧
    (∀ pre post, lastDotSplit (jsOrStr sampleDocxFile.name "document").data = some (pre, post) →
      post ≠ [] → post.all (fun c => c ≠ '/') = true →
      endsWithPdf (replaceExtPdf (jsOrStr sampleDocxFile.name "document")) = true) := by
  exact c10_media_type_independent_of_instructions sampleEnv "k" parseOk constUp constUp
    sampleDocxFile "x" "y" emptyInstr emptyInstr 200 200 [7] [7]
    rfl (by decide) (by decide) rfl rfl (fun _ => rfl) (fun _ => rfl)

end NutrientDWS
